import Mathlib

/-!
Shallow embedding of the minigame simulation core of the hackathon-game
repository: the Park HaMesilah side-scroll variant, the generic engine
(GenericMinigame), and the Memadion chair-dodge variant.  Coordinates and
times are rationals, scores are integers, hearts are naturals.
-/

/-- Axis-aligned rectangle, as used by both `rectsOverlap` implementations
(the Park variant and the generic engine define the identical test). -/
structure Rect where
  x : ℚ
  y : ℚ
  width : ℚ
  height : ℚ
deriving DecidableEq, Repr

/-- `rectsOverlap` from ParkHaMesilahMinigame / GenericMinigame:
`a.x < b.x + b.width && a.x + a.width > b.x && a.y < b.y + b.height && a.y + a.height > b.y`. -/
def rectsOverlap (a b : Rect) : Bool :=
  (a.x < b.x + b.width) && (a.x + a.width > b.x) &&
    (a.y < b.y + b.height) && (a.y + a.height > b.y)

/-- Terminal transitions a resolution step can schedule (each via a 400ms
`setTimeout` in the source): the `onWin` / `onLose` props, or a direct
navigation (`setGameState('gameover')` / `setGameState('map')`). -/
inductive Callback
  | win
  | lose
  | gameoverNav
  | mapNav
deriving DecidableEq, Repr

/-- Modelled from the spec: `loseHeart` of the shared game store
(`lib/gameStore` is not among the provided sources).  Per the spec an enemy
hit "deducts one heart" and health is "clamped to 0" (never negative);
natural subtraction gives exactly that clamping. -/
def loseHeart (hearts : ℕ) : ℕ :=
  hearts - 1

/-- Modelled from the spec: `gainHeart` of the shared game store
(`lib/gameStore` is not among the provided sources).  Per the spec a
collectible pickup "grants one heart (capped at the configured maximum,
e.g., 5)". -/
def gainHeart (hearts : ℕ) : ℕ :=
  min (hearts + 1) 5

/-- One `loseHeart()` call per hit, iterated: the Park enemy loop invokes the
store's `loseHeart` once for every overlapping enemy of the tick. -/
def loseHeartTimes : ℕ → ℕ → ℕ
  | 0, hearts => hearts
  | hits + 1, hearts => loseHeartTimes hits (loseHeart hearts)

namespace Park

def GAME_DURATION : ℚ := 30000
def PLAYER_WIDTH : ℚ := 100
def PLAYER_HEIGHT : ℚ := 150
def MOVEMENT_SPEED : ℚ := 6
def SPRAY_SPEED : ℚ := 4
def SCORE_FOR_WIN : ℤ := 100
def POINTS_FOR_SPRAY : ℤ := 10

/-- An enemy of the Park variant (roach or rat); the `type` string and the
animation state are visual-only and carry no simulation weight beyond the
stored `width`/`height`/`speed`. -/
structure Enemy where
  x : ℚ
  y : ℚ
  speed : ℚ
  width : ℚ
  height : ℚ
deriving DecidableEq, Repr

/-- A falling spray collectible of the Park variant. -/
structure Spray where
  x : ℚ
  y : ℚ
  width : ℚ
  height : ℚ
deriving DecidableEq, Repr

/-- Session state of the Park variant: the React state cells that the
simulation reads and writes (`hearts` is the store's
`health.permanentHearts`). -/
structure State where
  playerX : ℚ
  playerY : ℚ
  running : Bool
  score : ℤ
  startTime : ℚ
  timeLeft : ℚ
  enemies : List Enemy
  sprays : List Spray
  hearts : ℕ
deriving DecidableEq, Repr

/-- `getPlayerHitbox`: centred on `playerX`, feet at `playerY`, fixed
`PLAYER_WIDTH × PLAYER_HEIGHT`. -/
def getPlayerHitbox (playerX playerY : ℚ) : Rect :=
  { x := playerX - PLAYER_WIDTH / 2
    y := playerY - PLAYER_HEIGHT
    width := PLAYER_WIDTH
    height := PLAYER_HEIGHT }

/-- Enemy hitbox used in `checkCollisions`: `{x, y - height, width, height}`. -/
def enemyHitbox (e : Enemy) : Rect :=
  { x := e.x, y := e.y - e.height, width := e.width, height := e.height }

/-- Off-screen test of the enemy branch of `checkCollisions`:
`(speed > 0 && x > width) || (speed < 0 && x + width < 0)`. -/
def enemyOffscreen (canvasW : ℚ) (e : Enemy) : Bool :=
  (e.speed > 0 && e.x > canvasW) || (e.speed < 0 && e.x + e.width < 0)

/-- The enemy loop of the Park `checkCollisions`: every overlapping enemy is
removed and counted as a hit (one `loseHeart()` call each — there is no
invulnerability state and no early exit), every off-screen enemy is removed.
The source iterates downward with `splice`, which examines each enemy exactly
once, so a structural recursion over the list is equivalent. -/
def enemyPass (canvasW : ℚ) (player : Rect) : List Enemy → List Enemy × ℕ
  | [] => ([], 0)
  | e :: rest =>
    let (es, hits) := enemyPass canvasW player rest
    if rectsOverlap player (enemyHitbox e) then (es, hits + 1)
    else if enemyOffscreen canvasW e then (es, hits)
    else (e :: es, hits)

/-- The spray loop of the Park `checkCollisions`: every overlapping spray is
removed and counted as a pickup (`score += POINTS_FOR_SPRAY` each), sprays
past the bottom (`y > height`) are removed. -/
def sprayPass (canvasH : ℚ) (player : Rect) : List Spray → List Spray × ℕ
  | [] => ([], 0)
  | s :: rest =>
    let (ss, picks) := sprayPass canvasH player rest
    if rectsOverlap player { x := s.x, y := s.y, width := s.width, height := s.height } then
      (ss, picks + 1)
    else if s.y > canvasH then (ss, picks)
    else (s :: ss, picks)

/-- `checkCollisions` of the Park variant: processes the enemy list (each
overlap calls `loseHeart()`), then the spray list (each overlap adds
`POINTS_FOR_SPRAY`).  `running` is not touched. -/
def checkCollisions (canvasW canvasH : ℚ) (s : State) : State :=
  let player := getPlayerHitbox s.playerX s.playerY
  let ep := enemyPass canvasW player s.enemies
  let sp := sprayPass canvasH player s.sprays
  { s with
    enemies := ep.1
    hearts := loseHeartTimes ep.2 s.hearts
    sprays := sp.1
    score := s.score + POINTS_FOR_SPRAY * (sp.2 : ℤ) }

/-- Left-arrow movement: `Math.max(PLAYER_WIDTH / 2, prev - MOVEMENT_SPEED)`. -/
def movePlayerLeft (x : ℚ) : ℚ :=
  max (PLAYER_WIDTH / 2) (x - MOVEMENT_SPEED)

/-- Right-arrow movement:
`Math.min(canvasSize.width - PLAYER_WIDTH / 2, prev + MOVEMENT_SPEED)`. -/
def movePlayerRight (canvasW x : ℚ) : ℚ :=
  min (canvasW - PLAYER_WIDTH / 2) (x + MOVEMENT_SPEED)

/-- One firing of the Park game-timer: the effect is guarded by
`running && canvasSize.width`; on `remaining <= 0` it clears the interval and
fires `onWin` (score ≥ `SCORE_FOR_WIN`) or `onLose` — note that it does NOT
set `running` to false. -/
def timerTick (canvasW : ℚ) (s : State) (now : ℚ) : State × Option Callback :=
  if !s.running || canvasW == 0 then (s, none)
  else if max 0 (GAME_DURATION - (now - s.startTime)) ≤ 0 then
    ({ s with timeLeft := max 0 (GAME_DURATION - (now - s.startTime)) },
      if s.score ≥ SCORE_FOR_WIN then some .win else some .lose)
  else ({ s with timeLeft := max 0 (GAME_DURATION - (now - s.startTime)) }, none)

/-- The hearts-zero effect of the Park variant: on `permanentHearts <= 0` it
stops the session and navigates to the game-over screen via
`setGameState('gameover')` (the `onLose` prop is not called on this path). -/
def heartsZeroStep (s : State) : State × Option Callback :=
  if s.hearts = 0 then ({ s with running := false }, some .gameoverNav)
  else (s, none)

/-- Enemy movement of the Park game loop: `x += speed`, keep while on-screen
(direction-aware margins). -/
def moveEnemies (canvasW : ℚ) (es : List Enemy) : List Enemy :=
  (es.map fun e => { e with x := e.x + e.speed }).filter fun e =>
    (e.speed > 0 && e.x < canvasW + e.width) || (e.speed < 0 && e.x > -e.width)

/-- Spray movement of the Park game loop: `y += SPRAY_SPEED`, keep while
`y < height + spray.height`. -/
def moveSprays (canvasH : ℚ) (ss : List Spray) : List Spray :=
  (ss.map fun s => { s with y := s.y + SPRAY_SPEED }).filter fun s =>
    s.y < canvasH + s.height

/-- One frame of the Park game loop (guarded by `running && canvasSize.width`):
move entities, then `checkCollisions`. -/
def loopStep (canvasW canvasH : ℚ) (s : State) : State :=
  if !s.running || canvasW == 0 then s
  else
    checkCollisions canvasW canvasH
      { s with enemies := moveEnemies canvasW s.enemies
               sprays := moveSprays canvasH s.sprays }

/-- The enemy spawner of the Park variant (guarded by
`running && canvasSize.width`); the randomly drawn enemy is passed in as an
oracle. -/
def spawnEnemyStep (canvasW : ℚ) (e : Enemy) (s : State) : State :=
  if !s.running || canvasW == 0 then s
  else { s with enemies := s.enemies ++ [e] }

/-- The spray spawner of the Park variant (guarded by
`running && canvasSize.width`); the randomly placed spray is passed in as an
oracle. -/
def spawnSprayStep (canvasW : ℚ) (sp : Spray) (s : State) : State :=
  if !s.running || canvasW == 0 then s
  else { s with sprays := s.sprays ++ [sp] }

end Park

namespace Generic

def PLAYER_RADIUS : ℚ := 24

/-- Logical image dimensions (`HTMLImageElement.width/height`), used only for
the aspect-ratio-derived hitbox widths. -/
structure Img where
  width : ℚ
  height : ℚ
deriving DecidableEq, Repr

/-- A falling enemy of the generic engine. -/
structure Enemy where
  x : ℚ
  y : ℚ
  size : ℚ
  spawnTime : ℚ
deriving DecidableEq, Repr

/-- A collectible or point item of the generic engine. -/
structure Item where
  x : ℚ
  y : ℚ
  type : String
  spawnTime : ℚ
deriving DecidableEq, Repr

/-- Session state of the generic engine: the React state cells plus the
store-held health, invulnerability and effect fields the simulation reads
and writes.  `remainingTime` is the whole-second display value kept in React
state (read stale by the end-of-game effect, see `endStep`). -/
structure GState where
  playerX : ℚ
  enemies : List Enemy
  collectible : Option Item
  pointItem : Option Item
  running : Bool
  score : ℤ
  remainingTime : ℤ
  hearts : ℕ
  isInvulnerable : Bool
  invulnerabilityEndTime : ℚ
  flickerEnd : ℚ
  shakeEnd : ℚ
  redOverlayEnd : ℚ
  aura : Option (String × ℚ)
deriving DecidableEq, Repr

/-- `getPlayerRect`: with a loaded player image the hitbox height is
`canvasSize.height * 0.23` and the width follows the sprite aspect ratio;
without one (`!playerImageRef.current || !selectedCharacter`) a
`2 * PLAYER_RADIUS` square 60px above the bottom is used. -/
def getPlayerRect (canvasH : ℚ) (playerImage : Option Img) (playerX : ℚ) : Rect :=
  match playerImage with
  | none =>
    let size := PLAYER_RADIUS * 2
    { x := playerX - PLAYER_RADIUS
      y := canvasH - 60 - PLAYER_RADIUS
      width := size
      height := size }
  | some img =>
    let playerHeight := canvasH * 0.23
    let aspect := img.width / img.height
    let playerWidth := playerHeight * aspect
    { x := playerX - playerWidth / 2
      y := canvasH - playerHeight
      width := playerWidth
      height := playerHeight }

/-- `getEnemyRect`: with a loaded enemy image the height is `enemy.size` and
the width follows the sprite aspect ratio; without one a
`(size / 100) * 32` square is used.  Both are centred on the enemy position. -/
def getEnemyRect (enemyImage : Option Img) (e : Enemy) : Rect :=
  match enemyImage with
  | none =>
    let size := e.size / 100 * 32
    { x := e.x - size / 2, y := e.y - size / 2, width := size, height := size }
  | some img =>
    let enemyHeight := e.size
    let aspect := img.width / img.height
    let enemyWidth := enemyHeight * aspect
    { x := e.x - enemyWidth / 2
      y := e.y - enemyHeight / 2
      width := enemyWidth
      height := enemyHeight }

/-- `getItemRect`: fixed 80px square centred on the item. -/
def getItemRect (x y : ℚ) : Rect :=
  { x := x - 80 / 2, y := y - 80 / 2, width := 80, height := 80 }

/-- `handleMouse` player-x update:
`Math.max(PLAYER_RADIUS, Math.min(canvasSize.width - PLAYER_RADIUS, x))`. -/
def handleMouse (canvasW x : ℚ) : ℚ :=
  max PLAYER_RADIUS (min (canvasW - PLAYER_RADIUS) x)

/-- The collectible section of the generic `checkCollisions`: a pickup calls
`gainHeart()`, sets a "primary" aura and clears the slot; a collectible past
`canvasSize.height + 20` is culled. -/
def collectiblePass (canvasH : ℚ) (playerRect : Rect) (now : ℚ) (s : GState) : GState :=
  match s.collectible with
  | some c =>
    if rectsOverlap playerRect (getItemRect c.x c.y) then
      { s with
        hearts := gainHeart s.hearts
        aura := some ("primary", now)
        collectible := none }
    else if c.y > canvasH + 20 then { s with collectible := none }
    else s
  | none => s

/-- The point-item section of the generic `checkCollisions`: a pickup adds 10
to the score, sets a "point" aura and clears the slot; a point item past
`canvasSize.height + 20` is culled. -/
def pointItemPass (canvasH : ℚ) (playerRect : Rect) (now : ℚ) (s : GState) : GState :=
  match s.pointItem with
  | some p =>
    if rectsOverlap playerRect (getItemRect p.x p.y) then
      { s with
        score := s.score + 10
        aura := some ("point", now)
        pointItem := none }
    else if p.y > canvasH + 20 then { s with pointItem := none }
    else s
  | none => s

/-- `checkCollisions` of the generic engine.  While not invulnerable, the
first overlapping enemy arms invulnerability/flicker/shake/red-overlay,
calls `loseHeart()` and returns from the whole function (the enemy list is
not modified and collectible/point-item checks are skipped that call).
Otherwise the collectible section and then the point-item section run. -/
def checkCollisions (canvasH : ℚ) (playerImage enemyImage : Option Img)
    (now : ℚ) (s : GState) : GState :=
  match
    (if s.isInvulnerable then none
     else s.enemies.find? fun e =>
       rectsOverlap (getPlayerRect canvasH playerImage s.playerX) (getEnemyRect enemyImage e))
  with
  | some _ =>
    { s with
      isInvulnerable := true
      invulnerabilityEndTime := now + 1500
      flickerEnd := now + 500
      shakeEnd := now + 300
      redOverlayEnd := now + 300
      hearts := loseHeart s.hearts }
  | none =>
    pointItemPass canvasH (getPlayerRect canvasH playerImage s.playerX) now
      (collectiblePass canvasH (getPlayerRect canvasH playerImage s.playerX) now s)

/-- The collision effect of the generic engine: guarded by
`running && canvasSize.width`, then `checkCollisions()`. -/
def collisionStep (canvasW canvasH : ℚ) (playerImage enemyImage : Option Img)
    (now : ℚ) (s : GState) : GState :=
  if !s.running || canvasW == 0 then s
  else checkCollisions canvasH playerImage enemyImage now s

/-- One run of the end-of-game effect of the generic engine.  It recomputes
the whole-second remaining time (stored for the next render), then:
if `score >= 100 && selectedNeighborhood` the session stops and `onWin`
(or, absent the callback, a map navigation) fires; otherwise if the STALE
`remainingTime` state read by this run is `<= 0` the session stops and
`onWin` / `onLose` / map navigation fires according to the score and the
provided callbacks. -/
def endStep (duration : ℚ) (onWinProvided onLoseProvided : Bool)
    (neighborhood : Option String) (minigameStartTime now : ℚ)
    (s : GState) : GState × Option Callback :=
  if !s.running then (s, none)
  else if s.score ≥ 100 ∧ neighborhood.isSome then
    ({ s with
        remainingTime := max 0 ⌊(duration - (now - minigameStartTime)) / 1000⌋
        running := false },
      some (if onWinProvided then .win else .mapNav))
  else if s.remainingTime ≤ 0 then
    ({ s with
        remainingTime := max 0 ⌊(duration - (now - minigameStartTime)) / 1000⌋
        running := false },
      some
        (if s.score ≥ 100 ∧ onWinProvided then .win
         else if s.score < 100 ∧ onLoseProvided then .lose
         else .mapNav))
  else ({ s with remainingTime := max 0 ⌊(duration - (now - minigameStartTime)) / 1000⌋ }, none)

/-- The hearts-zero effect of the generic engine: on `permanentHearts <= 0`
the session stops and `onLose` fires (or, absent the callback, a game-over
navigation). -/
def heartsZeroStep (onLoseProvided : Bool) (s : GState) : GState × Option Callback :=
  if s.hearts = 0 then
    ({ s with running := false }, some (if onLoseProvided then .lose else .gameoverNav))
  else (s, none)

/-- The enemy spawner of the generic engine (guarded by
`running && canvasSize.width`); the randomly drawn enemy is passed in as an
oracle. -/
def spawnEnemyStep (canvasW : ℚ) (e : Enemy) (s : GState) : GState :=
  if !s.running || canvasW == 0 then s
  else { s with enemies := s.enemies ++ [e] }

/-- One frame of the generic game loop (guarded by
`running && canvasSize.width`): enemies fall by `theme.enemySpeed` and are
culled past `canvasSize.height + 50`; collectible and point item fall by 4. -/
def loopStep (canvasW canvasH enemySpeed : ℚ) (s : GState) : GState :=
  if !s.running || canvasW == 0 then s
  else
    { s with
      enemies :=
        (s.enemies.map fun e => { e with y := e.y + enemySpeed }).filter fun e =>
          e.y < canvasH + 50
      collectible := s.collectible.map fun c => { c with y := c.y + 4 }
      pointItem := s.pointItem.map fun p => { p with y := p.y + 4 } }

end Generic

namespace Memadion

def GAME_DURATION : ℚ := 20000
def PLAYER_RADIUS : ℚ := 24

/-- Chair type weights, in the entry order of `CHAIR_TYPE_WEIGHTS`
(`Object.entries` preserves the literal's insertion order). -/
def CHAIR_TYPE_WEIGHTS : List (String × ℚ) := [("red", 1), ("white", 4)]

/-- Keys of `CHAIR_TYPES`, for the fallback branch of `randomChairType`. -/
def CHAIR_TYPES_KEYS : List String := ["red", "white"]

/-- The cumulative-weight walk inside `randomChairType`: subtract each weight
from the draw until it falls within an entry; `none` if the walk falls
through. -/
def selectWeighted : List (String × ℚ) → ℚ → Option String
  | [], _ => none
  | (t, w) :: rest, r => if r < w then some t else selectWeighted rest (r - w)

/-- `totalWeight` of `randomChairType`: the sum of the weights. -/
def totalWeight : ℚ :=
  (CHAIR_TYPE_WEIGHTS.map Prod.snd).sum

/-- `randomChairType`, with the uniform draw `random ∈ [0, totalWeight)`
passed in as an oracle; the fallback branch returns
`Object.keys(CHAIR_TYPES)[0]`. -/
def randomChairType (random : ℚ) : String :=
  (selectWeighted CHAIR_TYPE_WEIGHTS random).getD (CHAIR_TYPES_KEYS.headD "")

/-- A flying chair of the Memadion variant. -/
structure Chair where
  x : ℚ
  y : ℚ
  size : ℚ
  type : String
  speed : ℚ
  dirX : ℚ
  dirY : ℚ
  rotation : ℚ
  spinSpeed : ℚ
  spawnTime : ℚ
deriving DecidableEq, Repr

/-- Session state of the Memadion variant. -/
structure MState where
  playerX : ℚ
  playerY : ℚ
  running : Bool
  startTime : ℚ
  timeLeft : ℚ
  score : ℤ
  lifeLost : Bool
  chairs : List Chair
  hearts : ℕ
deriving DecidableEq, Repr

/-- The chair-collision test of the collision effect.  The source compares
`Math.sqrt(dx*dx + dy*dy) < PLAYER_RADIUS * 0.8 + chair.size / 2.5`; over the
rationals we use the equivalent squared comparison
`dx^2 + dy^2 < (PLAYER_RADIUS * 0.8 + chair.size / 2.5)^2`, valid because the
radius sum is positive for the non-negative sizes the spawner produces —
the equivalence with the real square root is `chairHitB_iff_sqrt` below. -/
def chairHitB (playerX playerY : ℚ) (c : Chair) : Bool :=
  (c.x - playerX) ^ 2 + (c.y - playerY) ^ 2 <
    (PLAYER_RADIUS * 0.8 + c.size / 2.5) ^ 2

/-- Mouse movement of the Memadion variant: both coordinates clamped to
`[PLAYER_RADIUS, extent - PLAYER_RADIUS]`. -/
def handleMouse (extent pos : ℚ) : ℚ :=
  max PLAYER_RADIUS (min (extent - PLAYER_RADIUS) pos)

/-- One run of the collision & win/lose effect: guarded by
`running && canvasSize.width` and by `lifeLost`; the first chair within the
shrunken radii sets `lifeLost`, calls `loseHeart()`, stops the session and
fires the game-over navigation when `hearts - 1 <= 0` (with the pre-decrement
`hearts` value) or `onLose` otherwise, then breaks out of the loop. -/
def collisionStep (canvasW : ℚ) (s : MState) : MState × Option Callback :=
  if !s.running || canvasW == 0 then (s, none)
  else if s.lifeLost then (s, none)
  else
    match s.chairs.find? (chairHitB s.playerX s.playerY) with
    | none => (s, none)
    | some _ =>
      let s1 := { s with lifeLost := true, hearts := loseHeart s.hearts, running := false }
      if s.hearts - 1 ≤ 0 then (s1, some .gameoverNav)
      else (s1, some .lose)

/-- One firing of the Memadion game timer (guarded by
`running && startTime !== 0`): on expiry it zeroes the clock, clears
`running` and fires `onWin`; otherwise it updates the clock and recomputes
the score as `Math.floor((elapsed / 1000) * 5)`. -/
def timerTick (s : MState) (now : ℚ) : MState × Option Callback :=
  if !s.running || s.startTime == 0 then (s, none)
  else if GAME_DURATION - (now - s.startTime) ≤ 0 then
    ({ s with timeLeft := 0, running := false }, some .win)
  else
    ({ s with
        timeLeft := GAME_DURATION - (now - s.startTime)
        score := ⌊(now - s.startTime) / 1000 * 5⌋ }, none)

/-- Chair movement of the Memadion game loop: advance along the direction
vector, spin, and cull chairs beyond a `2 * size` margin. -/
def loopStep (canvasW canvasH : ℚ) (s : MState) : MState :=
  if !s.running || canvasW == 0 then s
  else
    { s with
      chairs :=
        (s.chairs.map fun c =>
            { c with
              x := c.x + c.dirX * c.speed
              y := c.y + c.dirY * c.speed
              rotation := c.rotation + c.spinSpeed }).filter fun c =>
          c.x > -(c.size * 2) && c.x < canvasW + c.size * 2 &&
            c.y > -(c.size * 2) && c.y < canvasH + c.size * 2 }

end Memadion

/-! Concrete session states used by the counterexamples and witnesses. -/

/-- A Park session in mid-flight: player at (500, 680) on a 1000×800 canvas,
5 hearts, started at t=1000. -/
def parkBase : Park.State :=
  { playerX := 500, playerY := 680, running := true, score := 0,
    startTime := 1000, timeLeft := 30000, enemies := [], sprays := [], hearts := 5 }

/-- A roach whose hitbox ([480,540]×[605,640]) overlaps the player hitbox
([450,550]×[530,680]) of `parkBase`. -/
def parkEnemyOnPlayer : Park.Enemy :=
  { x := 480, y := 640, speed := 3, width := 60, height := 35 }

/-- A spray whose hitbox ([480,525]×[600,680]) overlaps the player hitbox of
`parkBase`. -/
def parkSprayOnPlayer : Park.Spray :=
  { x := 480, y := 600, width := 45, height := 80 }

/-- Park session with two enemies simultaneously overlapping the player. -/
def parkTwoEnemyState : Park.State :=
  { parkBase with enemies := [parkEnemyOnPlayer, parkEnemyOnPlayer] }

/-- Park session at score 90 with a spray overlapping the player. -/
def parkExpiredState : Park.State :=
  { parkBase with score := 90, sprays := [parkSprayOnPlayer] }

/-- Park session that already reached the winning score. -/
def parkScore100State : Park.State :=
  { parkBase with score := 100 }

/-- Park session whose hearts have just reached zero. -/
def parkDeadState : Park.State :=
  { parkBase with hearts := 0 }

/-- A generic-engine session in mid-flight on a 1000×800 canvas. -/
def genericBase : Generic.GState :=
  { playerX := 500, enemies := [], collectible := none, pointItem := none,
    running := true, score := 0, remainingTime := 30, hearts := 5,
    isInvulnerable := false, invulnerabilityEndTime := 0, flickerEnd := 0,
    shakeEnd := 0, redOverlayEnd := 0, aura := none }

/-- Generic-engine session during an invulnerability window. -/
def genericInvulnState : Generic.GState :=
  { genericBase with isInvulnerable := true }

/-- Generic-engine session whose hearts have just reached zero. -/
def genericDeadState : Generic.GState :=
  { genericBase with hearts := 0 }

/-- Park session already resolved (running switched off). -/
def parkStoppedState : Park.State :=
  { parkBase with running := false }

/-- Generic-engine session that reached the winning score with time left. -/
def genericScore100State : Generic.GState :=
  { genericBase with score := 100 }

/-- Generic-engine session at the winning score whose displayed remaining
time has reached zero. -/
def genericTimeoutState : Generic.GState :=
  { genericBase with score := 100, remainingTime := 0 }

/-- A chair sitting exactly on the Memadion player position. -/
def memadionChairOnPlayer : Memadion.Chair :=
  { x := 500, y := 400, size := 60, type := "red", speed := 2, dirX := 1, dirY := 0,
    rotation := 0, spinSpeed := 0.03, spawnTime := 1000 }

/-- A Memadion session in mid-flight: player at (500, 400), 5 hearts,
started at t=1000. -/
def memadionBase : Memadion.MState :=
  { playerX := 500, playerY := 400, running := true, startTime := 1000,
    timeLeft := 20000, score := 0, lifeLost := false, chairs := [], hearts := 5 }

/-- Memadion session with a chair dead on the player. -/
def memadionHitState : Memadion.MState :=
  { memadionBase with chairs := [memadionChairOnPlayer] }

/-! Helper lemmas. -/

/-- The rational squared comparison used by `Memadion.chairHitB` agrees with
the source's `Math.sqrt(dx*dx + dy*dy) < PLAYER_RADIUS * 0.8 + size / 2.5`
real-number comparison, for the non-negative chair sizes the spawner
produces. -/
lemma chairHitB_iff_sqrt (px py : ℚ) (c : Memadion.Chair) (hsz : 0 ≤ c.size) :
    Memadion.chairHitB px py c = true ↔
      Real.sqrt (((c.x : ℝ) - (px : ℝ)) ^ 2 + ((c.y : ℝ) - (py : ℝ)) ^ 2) <
        ((Memadion.PLAYER_RADIUS : ℚ) : ℝ) * 0.8 + (c.size : ℝ) / 2.5 := by
  have hszR : (0 : ℝ) ≤ (c.size : ℝ) := by exact_mod_cast hsz
  have hr : (0 : ℝ) < ((Memadion.PLAYER_RADIUS : ℚ) : ℝ) * 0.8 + (c.size : ℝ) / 2.5 := by
    have h1 : (0 : ℝ) ≤ (c.size : ℝ) / 2.5 := div_nonneg hszR (by norm_num)
    have h24 : ((Memadion.PLAYER_RADIUS : ℚ) : ℝ) * 0.8 = 19.2 := by
      norm_num [Memadion.PLAYER_RADIUS]
    rw [h24]
    linarith
  rw [Real.sqrt_lt' hr]
  have hq : Memadion.chairHitB px py c = true ↔
      (c.x - px) ^ 2 + (c.y - py) ^ 2 <
        (Memadion.PLAYER_RADIUS * 0.8 + c.size / 2.5) ^ 2 := by
    simp [Memadion.chairHitB]
  rw [hq, ← Rat.cast_lt (K := ℝ)]
  push_cast
  constructor <;> intro h <;> linarith

/-- The collectible section leaves enemies, score, point item and `running`
alone and either gains a heart or leaves hearts alone. -/
lemma collectiblePass_fields (cH : ℚ) (pr : Rect) (now : ℚ) (s : Generic.GState) :
    (Generic.collectiblePass cH pr now s).enemies = s.enemies ∧
      (Generic.collectiblePass cH pr now s).score = s.score ∧
      (Generic.collectiblePass cH pr now s).pointItem = s.pointItem ∧
      (Generic.collectiblePass cH pr now s).running = s.running ∧
      ((Generic.collectiblePass cH pr now s).hearts = gainHeart s.hearts ∨
        (Generic.collectiblePass cH pr now s).hearts = s.hearts) := by
  unfold Generic.collectiblePass
  rcases s.collectible with _ | c
  · simp
  · by_cases h1 : rectsOverlap pr (Generic.getItemRect c.x c.y) = true
    · simp [h1]
    · by_cases h2 : c.y > cH + 20 <;> simp [h1, h2]

/-- The point-item section leaves enemies, hearts and `running` alone and
either adds 10 to the score or leaves it alone. -/
lemma pointItemPass_fields (cH : ℚ) (pr : Rect) (now : ℚ) (s : Generic.GState) :
    (Generic.pointItemPass cH pr now s).enemies = s.enemies ∧
      (Generic.pointItemPass cH pr now s).hearts = s.hearts ∧
      (Generic.pointItemPass cH pr now s).running = s.running ∧
      ((Generic.pointItemPass cH pr now s).score = s.score + 10 ∨
        (Generic.pointItemPass cH pr now s).score = s.score) := by
  unfold Generic.pointItemPass
  rcases s.pointItem with _ | p
  · simp
  · by_cases h1 : rectsOverlap pr (Generic.getItemRect p.x p.y) = true
    · simp [h1]
    · by_cases h2 : p.y > cH + 20 <;> simp [h1, h2]

/-! Claim theorems. -/

/-- Claim C1 counterexample: in the Park variant's `checkCollisions` there is
no invulnerability — two enemies overlapping the player in the same tick each
call `loseHeart()`, so a session with 5 hearts drops to 3 hearts in one tick,
refuting "at most one heart is deducted in that tick ... in every minigame
variant". -/
theorem C1_counterexample :
    (Park.checkCollisions 1000 800 parkTwoEnemyState).hearts = 3 ∧
      ¬parkTwoEnemyState.hearts ≤ (Park.checkCollisions 1000 800 parkTwoEnemyState).hearts + 1 := by
  norm_num [Park.checkCollisions, parkTwoEnemyState, parkBase, Park.enemyPass,
    Park.sprayPass, parkEnemyOnPlayer, Park.getPlayerHitbox, Park.enemyHitbox,
    Park.enemyOffscreen, rectsOverlap, Park.PLAYER_WIDTH, Park.PLAYER_HEIGHT,
    loseHeartTimes, loseHeart]

/-- Claim C1 as amended: only the generic engine deducts at most one heart
per `checkCollisions` call — the first enemy hit arms invulnerability and the
function returns at once (without removing the enemy: the enemy list is
never modified), and while invulnerable no enemy collision deducts a heart
(for hearts within the configured cap of 5). -/
theorem C1_amended (cH : ℚ) (pI eI : Option Generic.Img) (now : ℚ)
    (s : Generic.GState) (hmax : s.hearts ≤ 5) :
    (s.isInvulnerable = true →
        s.hearts ≤ (Generic.checkCollisions cH pI eI now s).hearts) ∧
      s.hearts - 1 ≤ (Generic.checkCollisions cH pI eI now s).hearts ∧
      (Generic.checkCollisions cH pI eI now s).enemies = s.enemies := by
  have hcomp : ∀ pr : Rect,
      (Generic.pointItemPass cH pr now (Generic.collectiblePass cH pr now s)).enemies
          = s.enemies ∧
        ((Generic.pointItemPass cH pr now (Generic.collectiblePass cH pr now s)).hearts
            = gainHeart s.hearts ∨
          (Generic.pointItemPass cH pr now (Generic.collectiblePass cH pr now s)).hearts
            = s.hearts) := by
    intro pr
    obtain ⟨he1, _, _, _, hh1⟩ := collectiblePass_fields cH pr now s
    obtain ⟨he2, hh2, _, _⟩ :=
      pointItemPass_fields cH pr now (Generic.collectiblePass cH pr now s)
    exact ⟨by rw [he2, he1], by rw [hh2]; exact hh1⟩
  by_cases hinv : s.isInvulnerable = true
  · have hred : Generic.checkCollisions cH pI eI now s =
        Generic.pointItemPass cH (Generic.getPlayerRect cH pI s.playerX) now
          (Generic.collectiblePass cH (Generic.getPlayerRect cH pI s.playerX) now s) := by
      unfold Generic.checkCollisions
      simp [hinv]
    rw [hred]
    obtain ⟨he, hh⟩ := hcomp (Generic.getPlayerRect cH pI s.playerX)
    refine ⟨fun _ => ?_, ?_, he⟩ <;> rcases hh with h | h <;> rw [h] <;>
      simp [gainHeart] <;> omega
  · have hinv' : s.isInvulnerable = false := by simpa using hinv
    rcases hfind : s.enemies.find? (fun e =>
        rectsOverlap (Generic.getPlayerRect cH pI s.playerX) (Generic.getEnemyRect eI e))
      with _ | e
    · have hred : Generic.checkCollisions cH pI eI now s =
          Generic.pointItemPass cH (Generic.getPlayerRect cH pI s.playerX) now
            (Generic.collectiblePass cH (Generic.getPlayerRect cH pI s.playerX) now s) := by
        unfold Generic.checkCollisions
        simp [hinv', hfind]
      rw [hred]
      obtain ⟨he, hh⟩ := hcomp (Generic.getPlayerRect cH pI s.playerX)
      refine ⟨fun h => absurd h (by simp [hinv']), ?_, he⟩
      rcases hh with h | h <;> rw [h] <;> simp [gainHeart] <;> omega
    · have hred : Generic.checkCollisions cH pI eI now s =
          { s with
            isInvulnerable := true
            invulnerabilityEndTime := now + 1500
            flickerEnd := now + 500
            shakeEnd := now + 300
            redOverlayEnd := now + 300
            hearts := loseHeart s.hearts } := by
        unfold Generic.checkCollisions
        simp [hinv', hfind]
      rw [hred]
      refine ⟨fun h => absurd h (by simp [hinv']), ?_, rfl⟩
      simp [loseHeart]

/-- Witness for C1: during an invulnerability window `checkCollisions`
deducts nothing. -/
theorem C1_witness :
    genericInvulnState.hearts ≤
      (Generic.checkCollisions 800 none none 0 genericInvulnState).hearts :=
  (C1_amended 800 none none 0 genericInvulnState (by decide)).1 rfl

/-- Claim C2 counterexample: the Park timer-expiry path never clears
`running`, so after expiry every further firing resolves again — here the
first fires `onLose` (score 90), a spray pickup then lifts the score to 100
(still possible because the session is still running), and the next firing
fires `onWin`: two terminal callbacks, and both `onWin` and `onLose`, for one
session. -/
theorem C2_counterexample :
    (Park.timerTick 1000 parkExpiredState 32000).2 = some Callback.lose ∧
      (Park.timerTick 1000 (Park.timerTick 1000 parkExpiredState 32000).1 32100).2 =
        some Callback.lose ∧
      (Park.timerTick 1000
          (Park.checkCollisions 1000 800 (Park.timerTick 1000 parkExpiredState 32000).1)
          32200).2 =
        some Callback.win := by
  norm_num [Park.timerTick, Park.checkCollisions, Park.enemyPass, Park.sprayPass,
    Park.getPlayerHitbox, Park.enemyHitbox, Park.enemyOffscreen, rectsOverlap,
    parkExpiredState, parkBase, parkSprayOnPlayer, Park.GAME_DURATION,
    Park.SCORE_FOR_WIN, Park.POINTS_FOR_SPRAY, Park.PLAYER_WIDTH, Park.PLAYER_HEIGHT,
    loseHeartTimes, loseHeart]

/-- Claim C2 as amended: the Memadion timer clears `running` on expiry, so
its callback fires exactly once (a firing disarms the guard and a disarmed
session never fires again); the Park timer-expiry path, by contrast, leaves
`running` unchanged, so it is not guarded against firing twice. -/
theorem C2_amended :
    (∀ (s : Memadion.MState) (t : ℚ),
        (Memadion.timerTick s t).2.isSome = true →
          (Memadion.timerTick s t).1.running = false) ∧
      (∀ (s : Memadion.MState) (t : ℚ),
        s.running = false → Memadion.timerTick s t = (s, none)) ∧
      (∀ (s : Memadion.MState) (t t' : ℚ),
        (Memadion.timerTick s t).2.isSome = true →
          (Memadion.timerTick (Memadion.timerTick s t).1 t').2 = none) ∧
      (∀ (w : ℚ) (s : Park.State) (t : ℚ),
        (Park.timerTick w s t).1.running = s.running) := by
  have hfire : ∀ (s : Memadion.MState) (t : ℚ),
      (Memadion.timerTick s t).2.isSome = true →
        (Memadion.timerTick s t).1.running = false := by
    intro s t h
    unfold Memadion.timerTick at h ⊢
    split at h
    · simp at h
    · rename_i hg
      split at h
      · rename_i hr
        rw [if_neg hg, if_pos hr]
      · simp at h
  have hguard : ∀ (s : Memadion.MState) (t : ℚ),
      s.running = false → Memadion.timerTick s t = (s, none) := by
    intro s t h
    simp [Memadion.timerTick, h]
  refine ⟨hfire, hguard, ?_, ?_⟩
  · intro s t t' h
    rw [hguard _ t' (hfire s t h)]
  · intro w s t
    unfold Park.timerTick
    split
    · rfl
    · split <;> rfl

/-- Witness for C2: an expired Memadion tick fires and disarms; the next tick
fires nothing. -/
theorem C2_witness :
    (Memadion.timerTick memadionBase 25000).1.running = false ∧
      (Memadion.timerTick (Memadion.timerTick memadionBase 25000).1 25100).2 = none :=
  ⟨C2_amended.1 memadionBase 25000
      (by norm_num [Memadion.timerTick, memadionBase, Memadion.GAME_DURATION]),
   C2_amended.2.2.1 memadionBase 25000 25100
      (by norm_num [Memadion.timerTick, memadionBase, Memadion.GAME_DURATION])⟩

/-- Claim C7: weighted enemy-type selection follows cumulative-weight
selection.  For the chair weights red:1, white:4 (totalWeight 5) and any draw
`r ∈ [0, totalWeight)`, `randomChairType` returns "red" exactly when `r < 1`,
"white" exactly when `1 ≤ r < 5`, and the walk itself always succeeds (the
fallback branch is unreachable). -/
theorem C7_randomChairType_cumulative (r : ℚ) (h0 : 0 ≤ r)
    (h5 : r < Memadion.totalWeight) :
    (Memadion.randomChairType r = "red" ↔ r < 1) ∧
      (Memadion.randomChairType r = "white" ↔ 1 ≤ r) ∧
      (Memadion.selectWeighted Memadion.CHAIR_TYPE_WEIGHTS r).isSome = true := by
  have h5' : r < 5 := by
    have h := h5
    simp [Memadion.totalWeight, Memadion.CHAIR_TYPE_WEIGHTS] at h
    linarith
  have hsel : Memadion.selectWeighted Memadion.CHAIR_TYPE_WEIGHTS r =
      if r < 1 then some "red" else some "white" := by
    by_cases h1 : r < 1
    · simp [Memadion.selectWeighted, Memadion.CHAIR_TYPE_WEIGHTS, h1]
    · have h4 : r - 1 < 4 := by linarith
      simp [Memadion.selectWeighted, Memadion.CHAIR_TYPE_WEIGHTS, h1, h4]
  refine ⟨?_, ?_, ?_⟩
  · rw [Memadion.randomChairType, hsel]
    by_cases h1 : r < 1
    · simp [h1]
    · simp only [if_neg h1, Option.getD_some]
      constructor
      · intro h
        exact absurd h (by decide)
      · intro h
        exact absurd h h1
  · rw [Memadion.randomChairType, hsel]
    by_cases h1 : r < 1
    · simp only [if_pos h1, Option.getD_some]
      constructor
      · intro h
        exact absurd h (by decide)
      · intro hle
        exact absurd h1 (not_lt.mpr hle)
    · simp [if_neg h1, Option.getD_some, not_lt.mp h1]
  · rw [hsel]
    by_cases h1 : r < 1
    · simp [h1]
    · simp [h1]

/-- Witness for C7 at the concrete draws r = 1/2 and r = 3. -/
theorem C7_witness :
    Memadion.randomChairType (1 / 2) = "red" ∧ Memadion.randomChairType 3 = "white" :=
  ⟨(C7_randomChairType_cumulative (1 / 2) (by norm_num)
      (by norm_num [Memadion.totalWeight, Memadion.CHAIR_TYPE_WEIGHTS])).1.mpr (by norm_num),
   (C7_randomChairType_cumulative 3 (by norm_num)
      (by norm_num [Memadion.totalWeight, Memadion.CHAIR_TYPE_WEIGHTS])).2.1.mpr (by norm_num)⟩

/-- Claim C6: in the Memadion chair-dodge variant, one run of the collision
effect detects a hit (sets `lifeLost`) if and only if some chair's centre is
within Euclidean distance `PLAYER_RADIUS * 0.8 + chair.size / 2.5` of the
player centre (strict inequality), for a running, not-yet-hit session. -/
theorem C6_radial_collision_iff (w : ℚ) (s : Memadion.MState)
    (hrun : s.running = true) (hw : w ≠ 0) (hlife : s.lifeLost = false)
    (hsz : ∀ c ∈ s.chairs, 0 ≤ c.size) :
    (Memadion.collisionStep w s).1.lifeLost = true ↔
      ∃ c ∈ s.chairs,
        Real.sqrt (((c.x : ℝ) - (s.playerX : ℝ)) ^ 2 + ((c.y : ℝ) - (s.playerY : ℝ)) ^ 2) <
          ((Memadion.PLAYER_RADIUS : ℚ) : ℝ) * 0.8 + (c.size : ℝ) / 2.5 := by
  have hguard : (!s.running || w == 0) = false := by
    simp [hrun, hw]
  constructor
  · intro h
    rcases hfind : s.chairs.find? (Memadion.chairHitB s.playerX s.playerY) with _ | c
    · simp [Memadion.collisionStep, hguard, hlife, hfind] at h
    · have hmem := List.mem_of_find?_eq_some hfind
      have hhit := List.find?_some hfind
      exact ⟨c, hmem, (chairHitB_iff_sqrt s.playerX s.playerY c (hsz c hmem)).mp hhit⟩
  · rintro ⟨c, hmem, hdist⟩
    have hhit : Memadion.chairHitB s.playerX s.playerY c = true :=
      (chairHitB_iff_sqrt s.playerX s.playerY c (hsz c hmem)).mpr hdist
    have hfind : (s.chairs.find? (Memadion.chairHitB s.playerX s.playerY)).isSome := by
      rw [List.find?_isSome]
      exact ⟨c, hmem, hhit⟩
    rcases hfound : s.chairs.find? (Memadion.chairHitB s.playerX s.playerY) with _ | c'
    · rw [hfound] at hfind
      simp at hfind
    · by_cases hh : s.hearts - 1 ≤ 0 <;>
        simp [Memadion.collisionStep, hguard, hlife, hfound, hh]

/-- Witness for C6: a chair exactly on the player is a detected hit. -/
theorem C6_witness :
    (Memadion.collisionStep 1000 memadionHitState).1.lifeLost = true := by
  refine (C6_radial_collision_iff 1000 memadionHitState rfl (by norm_num) rfl ?_).mpr
      ⟨memadionChairOnPlayer, ?_, ?_⟩
  · intro c hc
    simp only [memadionHitState, memadionBase, List.mem_singleton] at hc
    subst hc
    norm_num [memadionChairOnPlayer]
  · simp [memadionHitState, memadionBase]
  have hx : ((memadionChairOnPlayer.x : ℝ) - (memadionHitState.playerX : ℝ)) = 0 := by
    norm_num [memadionChairOnPlayer, memadionHitState, memadionBase]
  have hy : ((memadionChairOnPlayer.y : ℝ) - (memadionHitState.playerY : ℝ)) = 0 := by
    norm_num [memadionChairOnPlayer, memadionHitState, memadionBase]
  rw [hx, hy]
  norm_num [Real.sqrt_zero, Memadion.PLAYER_RADIUS, memadionChairOnPlayer]

/-- Claim C3 counterexample: in the Park variant (the variant with
`SCORE_FOR_WIN = 100` and `POINTS_FOR_SPRAY = 10`), reaching score 100 well
before expiry resolves nothing — the timer firing at t=2000 (1 second in)
fires no callback and leaves the session running. -/
theorem C3_counterexample :
    (Park.timerTick 1000 parkScore100State 2000).2 = none ∧
      (Park.timerTick 1000 parkScore100State 2000).1.running = true := by
  norm_num [Park.timerTick, parkScore100State, parkBase, Park.GAME_DURATION]

/-- Claim C3 as amended: in the Park variant `onWin` fires only once the
session duration has elapsed (and then only with score ≥ `SCORE_FOR_WIN`);
the immediate early win on reaching score 100 exists only in the generic
engine, where (with a neighborhood selected and `onWin` provided) a run of
the end-of-game effect resolves to `onWin` at once, regardless of the
remaining time. -/
theorem C3_amended :
    (∀ (w : ℚ) (s : Park.State) (now : ℚ), w ≠ 0 → s.running = true →
        ((Park.timerTick w s now).2 = some Callback.win ↔
          Park.GAME_DURATION ≤ now - s.startTime ∧ Park.SCORE_FOR_WIN ≤ s.score)) ∧
      (∀ (d : ℚ) (oL : Bool) (n : String) (mst now : ℚ) (s : Generic.GState),
        s.running = true → 100 ≤ s.score →
          (Generic.endStep d true oL (some n) mst now s).2 = some Callback.win ∧
            (Generic.endStep d true oL (some n) mst now s).1.running = false) := by
  constructor
  · intro w s now hw hrun
    have hg : (!s.running || w == 0) = false := by simp [hrun, hw]
    unfold Park.timerTick
    rw [hg]
    simp only [Bool.false_eq_true, if_false]
    by_cases hexp : max 0 (Park.GAME_DURATION - (now - s.startTime)) ≤ 0
    · have hexp' : Park.GAME_DURATION ≤ now - s.startTime := by
        have h2 := (max_le_iff.mp hexp).2
        linarith
      rw [if_pos hexp]
      by_cases hsc : s.score ≥ Park.SCORE_FOR_WIN
      · simp [hsc, hexp']
      · simp only [if_neg hsc]
        constructor
        · intro h
          simp at h
        · rintro ⟨_, h⟩
          exact absurd h hsc
    · have hexp' : ¬Park.GAME_DURATION ≤ now - s.startTime := by
        intro hle
        exact hexp (max_le_iff.mpr ⟨le_refl 0, by linarith⟩)
      rw [if_neg hexp]
      constructor
      · intro h
        simp at h
      · rintro ⟨h, _⟩
        exact absurd h hexp'
  · intro d oL n mst now s hrun hsc
    unfold Generic.endStep
    have hg : (!s.running) = false := by simp [hrun]
    rw [hg]
    simp only [Bool.false_eq_true, if_false]
    rw [if_pos ⟨hsc, rfl⟩]
    exact ⟨rfl, rfl⟩

/-- Witness for C3: the Park timer at t=41000 (expired, score 100) fires
`onWin`; the generic end step fires `onWin` at once on score 100 with a
neighborhood selected, 28 display-seconds before expiry. -/
theorem C3_witness :
    (Park.timerTick 1000 parkScore100State 41000).2 = some Callback.win ∧
      (Generic.endStep 30000 true true (some "Florentin") 1000 2000 genericScore100State).2 =
        some Callback.win :=
  ⟨(C3_amended.1 1000 parkScore100State 41000 (by norm_num) rfl).mpr
      ⟨by norm_num [parkScore100State, parkBase, Park.GAME_DURATION],
       by norm_num [parkScore100State, parkBase, Park.SCORE_FOR_WIN]⟩,
   (C3_amended.2 30000 true "Florentin" 1000 2000 genericScore100State rfl
      (by norm_num [genericScore100State, genericBase])).1⟩

/-- Claim C4 counterexample: in the Memadion variant a single chair collision
with 5 hearts remaining stops the session and fires `onLose` — an event that
moves a running session to lost with hearts above 0 and time remaining,
refuting "no other event ... moves a running session into the lost state.
This includes the Memadion chair-dodge variant." -/
theorem C4_counterexample :
    memadionHitState.hearts = 5 ∧
      (Memadion.collisionStep 1000 memadionHitState).1.running = false ∧
      (Memadion.collisionStep 1000 memadionHitState).2 = some Callback.lose := by
  refine ⟨rfl, ?_⟩
  have hne : ¬(memadionHitState.hearts - 1 ≤ 0) := by decide
  constructor <;>
    · norm_num [Memadion.collisionStep, memadionHitState, memadionBase,
        memadionChairOnPlayer, Memadion.chairHitB, Memadion.PLAYER_RADIUS,
        List.find?, hne, loseHeart]

/-- Claim C4 as amended: in the Park variant and the generic engine a running
session moves to lost only via hearts reaching 0 or the timer expiring with
the score below the threshold (collisions never touch `running`); in the
Memadion variant, however, any single chair collision immediately stops the
session — firing `onLose` when hearts remain above 0 after the deduction, and
the game-over navigation otherwise. -/
theorem C4_amended :
    (∀ (w h : ℚ) (s : Park.State), (Park.checkCollisions w h s).running = s.running) ∧
      (∀ (s : Park.State), s.hearts ≠ 0 → Park.heartsZeroStep s = (s, none)) ∧
      (∀ (w : ℚ) (s : Park.State) (t : ℚ), w ≠ 0 → s.running = true →
        ((Park.timerTick w s t).2 = some Callback.lose ↔
          Park.GAME_DURATION ≤ t - s.startTime ∧ s.score < Park.SCORE_FOR_WIN)) ∧
      (∀ (cH : ℚ) (pI eI : Option Generic.Img) (now : ℚ) (s : Generic.GState),
        (Generic.checkCollisions cH pI eI now s).running = s.running) ∧
      (∀ (oLP : Bool) (s : Generic.GState), s.hearts ≠ 0 →
        Generic.heartsZeroStep oLP s = (s, none)) ∧
      (∀ (d : ℚ) (oW oL : Bool) (nb : Option String) (mst now : ℚ) (s : Generic.GState),
        (Generic.endStep d oW oL nb mst now s).2 = some Callback.lose →
          s.remainingTime ≤ 0 ∧ s.score < 100) ∧
      (∀ (w : ℚ) (s : Memadion.MState), w ≠ 0 → s.running = true → s.lifeLost = false →
        2 ≤ s.hearts →
        (s.chairs.find? (Memadion.chairHitB s.playerX s.playerY)).isSome = true →
          (Memadion.collisionStep w s).1.running = false ∧
            (Memadion.collisionStep w s).2 = some Callback.lose) := by
  refine ⟨?_, ?_, ?_, ?_, ?_, ?_, ?_⟩
  · intro w h s
    rfl
  · intro s h
    unfold Park.heartsZeroStep
    rw [if_neg h]
  · intro w s t hw hrun
    have hg : (!s.running || w == 0) = false := by simp [hrun, hw]
    unfold Park.timerTick
    rw [hg]
    simp only [Bool.false_eq_true, if_false]
    by_cases hexp : max 0 (Park.GAME_DURATION - (t - s.startTime)) ≤ 0
    · have hexp' : Park.GAME_DURATION ≤ t - s.startTime := by
        have h2 := (max_le_iff.mp hexp).2
        linarith
      rw [if_pos hexp]
      by_cases hsc : s.score ≥ Park.SCORE_FOR_WIN
      · simp only [if_pos hsc]
        constructor
        · intro h
          simp at h
        · rintro ⟨_, h⟩
          exact absurd hsc (not_le.mpr h)
      · simp only [if_neg hsc]
        simp [hexp', not_le.mp hsc]
    · have hexp' : ¬Park.GAME_DURATION ≤ t - s.startTime := by
        intro hle
        exact hexp (max_le_iff.mpr ⟨le_refl 0, by linarith⟩)
      rw [if_neg hexp]
      constructor
      · intro h
        simp at h
      · rintro ⟨h, _⟩
        exact absurd h hexp'
  · intro cH pI eI now s
    unfold Generic.checkCollisions
    obtain ⟨_, _, _, hr1, _⟩ :=
      collectiblePass_fields cH (Generic.getPlayerRect cH pI s.playerX) now s
    obtain ⟨_, _, hr2, _⟩ := pointItemPass_fields cH (Generic.getPlayerRect cH pI s.playerX)
      now (Generic.collectiblePass cH (Generic.getPlayerRect cH pI s.playerX) now s)
    split
    · rfl
    · rw [hr2, hr1]
  · intro oLP s h
    unfold Generic.heartsZeroStep
    rw [if_neg h]
  · intro d oW oL nb mst now s h
    unfold Generic.endStep at h
    split at h
    · simp at h
    · split at h
      · rcases oW <;> simp at h
      · split at h
        · rename_i hto
          refine ⟨hto, ?_⟩
          by_contra hsc
          have hsc' : (100 : ℤ) ≤ s.score := not_lt.mp hsc
          rcases oW <;> rcases oL <;> simp [hsc, hsc'] at h
        · simp at h
  · intro w s hw hrun hlife hh hfind
    rcases hfound : s.chairs.find? (Memadion.chairHitB s.playerX s.playerY) with _ | c
    · rw [hfound] at hfind
      simp at hfind
    · have hg : (!s.running || w == 0) = false := by simp [hrun, hw]
      have hne : ¬(s.hearts - 1 ≤ 0) := by omega
      unfold Memadion.collisionStep
      rw [hg]
      simp only [Bool.false_eq_true, if_false, hlife, hfound]
      rw [if_neg hne]
      exact ⟨rfl, rfl⟩

/-- Witness for C4: the Memadion one-hit loss at 5 hearts. -/
theorem C4_witness :
    (Memadion.collisionStep 1000 memadionHitState).2 = some Callback.lose :=
  (C4_amended.2.2.2.2.2.2 1000 memadionHitState (by norm_num) rfl rfl (by decide)
      (by norm_num [memadionHitState, memadionBase, memadionChairOnPlayer,
        Memadion.chairHitB, Memadion.PLAYER_RADIUS, List.find?])).2

/-- Claim C5 counterexample: in the Park variant, hearts reaching 0 fires the
game-over navigation (`setGameState('gameover')`), not the `onLose` callback,
refuting "onLose() is invoked exactly once". -/
theorem C5_counterexample :
    (Park.heartsZeroStep parkDeadState).2 = some Callback.gameoverNav ∧
      (Park.heartsZeroStep parkDeadState).2 ≠ some Callback.lose := by
  constructor
  · simp [Park.heartsZeroStep, parkDeadState, parkBase]
  · simp [Park.heartsZeroStep, parkDeadState, parkBase]

/-- Claim C5 as amended: when hearts reach 0 the session stops and exactly
one terminal transition is scheduled — `onLose` in the generic engine (when
the callback is provided), but a direct game-over navigation (not `onLose`)
in the Park variant; and once `running` is false every score- or
entity-mutating step of every variant is a no-op, so no further score or
spawn mutation occurs after the resolution. -/
theorem C5_amended :
    (∀ s : Generic.GState, s.hearts = 0 →
        (Generic.heartsZeroStep true s).2 = some Callback.lose ∧
          (Generic.heartsZeroStep true s).1.running = false) ∧
      (∀ s : Park.State, s.hearts = 0 →
        (Park.heartsZeroStep s).1.running = false ∧
          (Park.heartsZeroStep s).2 = some Callback.gameoverNav) ∧
      (∀ (w h : ℚ) (s : Park.State), s.running = false → Park.loopStep w h s = s) ∧
      (∀ (w : ℚ) (e : Park.Enemy) (s : Park.State), s.running = false →
        Park.spawnEnemyStep w e s = s) ∧
      (∀ (w : ℚ) (sp : Park.Spray) (s : Park.State), s.running = false →
        Park.spawnSprayStep w sp s = s) ∧
      (∀ (w : ℚ) (s : Park.State) (t : ℚ), s.running = false →
        Park.timerTick w s t = (s, none)) ∧
      (∀ (cW cH : ℚ) (pI eI : Option Generic.Img) (now : ℚ) (s : Generic.GState),
        s.running = false → Generic.collisionStep cW cH pI eI now s = s) ∧
      (∀ (w : ℚ) (e : Generic.Enemy) (s : Generic.GState), s.running = false →
        Generic.spawnEnemyStep w e s = s) ∧
      (∀ (w h sp : ℚ) (s : Generic.GState), s.running = false →
        Generic.loopStep w h sp s = s) ∧
      (∀ (w : ℚ) (s : Memadion.MState), s.running = false →
        Memadion.collisionStep w s = (s, none)) ∧
      (∀ (s : Memadion.MState) (t : ℚ), s.running = false →
        Memadion.timerTick s t = (s, none)) := by
  refine ⟨?_, ?_, ?_, ?_, ?_, ?_, ?_, ?_, ?_, ?_, ?_⟩
  · intro s h
    unfold Generic.heartsZeroStep
    rw [if_pos h]
    exact ⟨rfl, rfl⟩
  · intro s h
    unfold Park.heartsZeroStep
    rw [if_pos h]
    exact ⟨rfl, rfl⟩
  · intro w h s hr
    simp [Park.loopStep, hr]
  · intro w e s hr
    simp [Park.spawnEnemyStep, hr]
  · intro w sp s hr
    simp [Park.spawnSprayStep, hr]
  · intro w s t hr
    simp [Park.timerTick, hr]
  · intro cW cH pI eI now s hr
    simp [Generic.collisionStep, hr]
  · intro w e s hr
    simp [Generic.spawnEnemyStep, hr]
  · intro w h sp s hr
    simp [Generic.loopStep, hr]
  · intro w s hr
    simp [Memadion.collisionStep, hr]
  · intro s t hr
    simp [Memadion.timerTick, hr]

/-- Witness for C5: the generic engine fires `onLose` at zero hearts, and a
stopped Park session is left untouched by the game loop. -/
theorem C5_witness :
    (Generic.heartsZeroStep true genericDeadState).2 = some Callback.lose ∧
      Park.loopStep 1000 800 parkStoppedState = parkStoppedState :=
  ⟨(C5_amended.1 genericDeadState rfl).1,
   C5_amended.2.2.1 1000 800 parkStoppedState rfl⟩

/-- Claim C8 counterexample: the generic engine clamps the mouse-driven
player x to `PLAYER_RADIUS` (24), not to half of the derived hitbox width —
with a 1:1 sprite on an 800-high viewport the hitbox is 184 wide, so
`hitboxWidth / 2 = 92` and x = 24 sits outside the claimed interval
`[hitboxWidth/2, viewportWidth - hitboxWidth/2]`. -/
theorem C8_counterexample :
    Generic.handleMouse 1000 0 = 24 ∧
      (Generic.getPlayerRect 800 (some { width := 100, height := 100 })
            (Generic.handleMouse 1000 0)).width / 2 = 92 ∧
      ¬(Generic.getPlayerRect 800 (some { width := 100, height := 100 })
            (Generic.handleMouse 1000 0)).width / 2 ≤ Generic.handleMouse 1000 0 := by
  norm_num [Generic.handleMouse, Generic.getPlayerRect, Generic.PLAYER_RADIUS]

/-- Claim C8 as amended: the Park variant keeps player x within
`[PLAYER_WIDTH/2, viewportWidth - PLAYER_WIDTH/2]` (its hitbox width is
`PLAYER_WIDTH`), while the generic engine's mouse handler clamps x to
`[PLAYER_RADIUS, viewportWidth - PLAYER_RADIUS]` — the fallback-circle
half-width — regardless of the derived image hitbox width. -/
theorem C8_amended :
    (∀ w x : ℚ, 2 * Generic.PLAYER_RADIUS ≤ w →
        Generic.PLAYER_RADIUS ≤ Generic.handleMouse w x ∧
          Generic.handleMouse w x ≤ w - Generic.PLAYER_RADIUS) ∧
      (∀ w x : ℚ, Park.PLAYER_WIDTH / 2 ≤ x → x ≤ w - Park.PLAYER_WIDTH / 2 →
        (Park.PLAYER_WIDTH / 2 ≤ Park.movePlayerLeft x ∧
            Park.movePlayerLeft x ≤ w - Park.PLAYER_WIDTH / 2) ∧
          (Park.PLAYER_WIDTH / 2 ≤ Park.movePlayerRight w x ∧
            Park.movePlayerRight w x ≤ w - Park.PLAYER_WIDTH / 2)) := by
  constructor
  · intro w x hw
    unfold Generic.handleMouse
    refine ⟨le_max_left _ _, max_le (by linarith) ?_⟩
    exact min_le_left _ _
  · intro w x hx1 hx2
    unfold Park.movePlayerLeft Park.movePlayerRight
    have hms : Park.MOVEMENT_SPEED = 6 := rfl
    refine ⟨⟨le_max_left _ _, max_le (by linarith) (by rw [hms]; linarith)⟩,
      ⟨le_min (by linarith) (by rw [hms]; linarith), min_le_left _ _⟩⟩

/-- Witness for C8: concrete clamps on a 1000-wide viewport. -/
theorem C8_witness :
    Generic.PLAYER_RADIUS ≤ Generic.handleMouse 1000 0 ∧
      Generic.handleMouse 1000 0 ≤ 1000 - Generic.PLAYER_RADIUS :=
  C8_amended.1 1000 0 (by norm_num [Generic.PLAYER_RADIUS])

/-- Claim C9: score is monotonically non-decreasing — the Park and generic
collision passes only ever add non-negative amounts (+10 per point pickup),
and the Memadion timer recomputes `floor(elapsedSeconds * 5)` from a
non-decreasing clock, so across two consecutive timer firings the stored
score never decreases. -/
theorem C9_score_monotone :
    (∀ (w h : ℚ) (s : Park.State), s.score ≤ (Park.checkCollisions w h s).score) ∧
      (∀ (cH : ℚ) (pI eI : Option Generic.Img) (now : ℚ) (s : Generic.GState),
        s.score ≤ (Generic.checkCollisions cH pI eI now s).score) ∧
      (∀ (s : Memadion.MState) (t t' : ℚ), t ≤ t' →
        ((Memadion.timerTick s t).1).score ≤
          ((Memadion.timerTick (Memadion.timerTick s t).1 t').1).score) := by
  refine ⟨?_, ?_, ?_⟩
  · intro w h s
    have hrw : (Park.checkCollisions w h s).score =
        s.score + Park.POINTS_FOR_SPRAY *
          ((Park.sprayPass h (Park.getPlayerHitbox s.playerX s.playerY) s.sprays).2 : ℤ) := rfl
    rw [hrw]
    have h10 : Park.POINTS_FOR_SPRAY = 10 := rfl
    have h0 : (0 : ℤ) ≤ Park.POINTS_FOR_SPRAY *
        ((Park.sprayPass h (Park.getPlayerHitbox s.playerX s.playerY) s.sprays).2 : ℤ) := by
      rw [h10]
      positivity
    linarith
  · intro cH pI eI now s
    unfold Generic.checkCollisions
    obtain ⟨_, hs1, _, _, _⟩ :=
      collectiblePass_fields cH (Generic.getPlayerRect cH pI s.playerX) now s
    obtain ⟨_, _, _, hsc2⟩ := pointItemPass_fields cH (Generic.getPlayerRect cH pI s.playerX)
      now (Generic.collectiblePass cH (Generic.getPlayerRect cH pI s.playerX) now s)
    split
    · exact le_refl _
    · rcases hsc2 with h | h <;> rw [h, hs1] <;> omega
  · intro s t t' htt
    by_cases hg : (!s.running || s.startTime == 0) = true
    · have h1 : Memadion.timerTick s t = (s, none) := by
        unfold Memadion.timerTick
        rw [if_pos hg]
      rw [h1]
      have h2 : Memadion.timerTick s t' = (s, none) := by
        unfold Memadion.timerTick
        rw [if_pos hg]
      rw [h2]
    · by_cases hexp : Memadion.GAME_DURATION - (t - s.startTime) ≤ 0
      · have h1 : Memadion.timerTick s t =
            ({ s with timeLeft := 0, running := false }, some .win) := by
          unfold Memadion.timerTick
          rw [if_neg hg, if_pos hexp]
        rw [h1]
        have h2 : Memadion.timerTick { s with timeLeft := 0, running := false } t' =
            ({ s with timeLeft := 0, running := false }, none) := by
          unfold Memadion.timerTick
          rw [if_pos (by simp)]
        rw [h2]
      · have h1 : Memadion.timerTick s t =
            ({ s with
                timeLeft := Memadion.GAME_DURATION - (t - s.startTime)
                score := ⌊(t - s.startTime) / 1000 * 5⌋ }, none) := by
          unfold Memadion.timerTick
          rw [if_neg hg, if_neg hexp]
        rw [h1]
        by_cases hexp' : Memadion.GAME_DURATION - (t' - s.startTime) ≤ 0
        · have h2 : Memadion.timerTick
              ({ s with
                  timeLeft := Memadion.GAME_DURATION - (t - s.startTime)
                  score := ⌊(t - s.startTime) / 1000 * 5⌋ }) t' =
              ({ s with
                  timeLeft := 0
                  running := false
                  score := ⌊(t - s.startTime) / 1000 * 5⌋ }, some .win) := by
            unfold Memadion.timerTick
            simp only
            rw [if_neg hg, if_pos hexp']
          rw [h2]
        · have h2 : Memadion.timerTick
              ({ s with
                  timeLeft := Memadion.GAME_DURATION - (t - s.startTime)
                  score := ⌊(t - s.startTime) / 1000 * 5⌋ }) t' =
              ({ s with
                  timeLeft := Memadion.GAME_DURATION - (t' - s.startTime)
                  score := ⌊(t' - s.startTime) / 1000 * 5⌋ }, none) := by
            unfold Memadion.timerTick
            simp only
            rw [if_neg hg, if_neg hexp']
          rw [h2]
          have hmono : (t - s.startTime) / 1000 * 5 ≤ (t' - s.startTime) / 1000 * 5 := by
            linarith
          exact Int.floor_le_floor hmono

/-- Witness for C9: two consecutive Memadion timer firings one second
apart. -/
theorem C9_witness :
    ((Memadion.timerTick memadionBase 2000).1).score ≤
      ((Memadion.timerTick (Memadion.timerTick memadionBase 2000).1 3000).1).score :=
  C9_score_monotone.2.2 memadionBase 2000 3000 (by norm_num)

/-- Claim C10 (implicit): in the generic engine the early-win resolution also
requires a selected neighborhood — with `selectedNeighborhood` null, reaching
score 100 with display time remaining leaves the session running and fires
nothing, and only once the stored remaining time has reached 0 does the
session resolve, firing `onWin` since the score is at least 100. -/
theorem C10_no_neighborhood_no_early_stop :
    (∀ (d : ℚ) (oW oL : Bool) (mst now : ℚ) (s : Generic.GState),
        s.running = true → 100 ≤ s.score → 0 < s.remainingTime →
          (Generic.endStep d oW oL none mst now s).2 = none ∧
            (Generic.endStep d oW oL none mst now s).1.running = true) ∧
      (∀ (d : ℚ) (oL : Bool) (mst now : ℚ) (s : Generic.GState),
        s.running = true → s.remainingTime ≤ 0 → 100 ≤ s.score →
          (Generic.endStep d true oL none mst now s).2 = some Callback.win ∧
            (Generic.endStep d true oL none mst now s).1.running = false) := by
  constructor
  · intro d oW oL mst now s hrun hsc hrt
    unfold Generic.endStep
    have hg : (!s.running) = false := by simp [hrun]
    rw [hg]
    simp only [Bool.false_eq_true, if_false]
    rw [if_neg (by simp), if_neg (by omega)]
    exact ⟨rfl, hrun⟩
  · intro d oL mst now s hrun hrt hsc
    unfold Generic.endStep
    have hg : (!s.running) = false := by simp [hrun]
    rw [hg]
    simp only [Bool.false_eq_true, if_false]
    rw [if_neg (by simp), if_pos hrt, if_pos ⟨hsc, by trivial⟩]
    exact ⟨rfl, rfl⟩

/-- Witness for C10: score 100 with no neighborhood — nothing fires with 30
display-seconds left; `onWin` fires once remaining time is 0. -/
theorem C10_witness :
    (Generic.endStep 30000 true true none 1000 2000 genericScore100State).2 = none ∧
      (Generic.endStep 30000 true true none 1000 2000 genericTimeoutState).2 =
        some Callback.win :=
  ⟨(C10_no_neighborhood_no_early_stop.1 30000 true true 1000 2000 genericScore100State rfl
      (by norm_num [genericScore100State, genericBase])
      (by norm_num [genericScore100State, genericBase])).1,
   (C10_no_neighborhood_no_early_stop.2 30000 true 1000 2000 genericTimeoutState rfl
      (by norm_num [genericTimeoutState, genericBase])
      (by norm_num [genericTimeoutState, genericBase])).1⟩
